import Mathlib

/-!
Shallow embedding of the hourly production/stoppage aggregation engine of
the aux-machine-performance server (src/server/routes/analytics.js).

Machine timestamps are modelled as milliseconds (Int); calendar days as a
Nat day index (the JS code keys records by calendar date equality).
Document references (ObjectId values) are modelled as Nat ids; a populated
mold reference carries its productionCapacityPerHour field.  JS `undefined`
optional fields become Option; JS numeric fields that the routes read with
a numeric fallback become Int.
-/

namespace AuxMachine

/-! ### Generic find-or-create-then-mutate-then-save over a document list

Mongoose findOne returns the first matching document; the routes mutate it
in place and save, or construct a fresh document and save (an insert,
modelled as appending the mutated fresh document at the end). -/

def findOrCreateUpdate (p : α → Bool) (f : α → α) (mk : α) : List α → List α
  | [] => [f mk]
  | x :: xs => if p x then f x :: xs else x :: findOrCreateUpdate p f mk xs

theorem find?_findOrCreateUpdate (p : α → Bool) (f : α → α) (mk : α)
    (hf : ∀ x, p (f x) = p x) (hmk : p mk = true) :
    ∀ xs : List α, (findOrCreateUpdate p f mk xs).find? p = some (f ((xs.find? p).getD mk))
  | [] => by
      simp [findOrCreateUpdate, List.find?_cons, hf, hmk]
  | x :: xs => by
      by_cases hx : p x
      · simp [findOrCreateUpdate, hx, List.find?_cons, hf]
      · have ih := find?_findOrCreateUpdate p f mk hf hmk xs
        simp [findOrCreateUpdate, hx, List.find?_cons, ih]

theorem mem_findOrCreateUpdate (p : α → Bool) (f : α → α) (mk : α) :
    ∀ (xs : List α) (y : α), y ∈ findOrCreateUpdate p f mk xs →
      y ∈ xs ∨ (∃ x, x ∈ xs ∧ p x = true ∧ y = f x) ∨ y = f mk
  | [], y, hy => by
      simp [findOrCreateUpdate] at hy
      exact Or.inr (Or.inr hy)
  | x :: xs, y, hy => by
      by_cases hx : p x
      · rw [findOrCreateUpdate, if_pos hx] at hy
        rcases List.mem_cons.mp hy with h | h
        · exact Or.inr (Or.inl ⟨x, List.mem_cons_self x xs, hx, h⟩)
        · exact Or.inl (List.mem_cons_of_mem x h)
      · rw [findOrCreateUpdate, if_neg hx] at hy
        rcases List.mem_cons.mp hy with h | h
        · exact Or.inl (h ▸ List.mem_cons_self x xs)
        · rcases mem_findOrCreateUpdate p f mk xs y h with h1 | ⟨z, hz, hpz, hyz⟩ | h2
          · exact Or.inl (List.mem_cons_of_mem x h1)
          · exact Or.inr (Or.inl ⟨z, List.mem_cons_of_mem x hz, hpz, hyz⟩)
          · exact Or.inr (Or.inr h2)

/-! ### Data model -/

/-- A populated mold document (Mold collection), as read by the stats route. -/
structure Mold where
  mid : Nat
  productionCapacityPerHour : Option Int := none
  deriving DecidableEq

/-- One stoppage entry inside an hour slot.  `sid` models the mongoose
subdocument `_id`; it is absent on entries that were never saved. -/
structure Stoppage where
  sid : Option Nat := none
  reason : String
  description : Option String := none
  startTime : Int
  endTime : Option Int := none
  duration : Option Int := none
  isPending : Bool := false
  isClassified : Bool := false
  sapNotificationNumber : Option String := none
  deriving DecidableEq

/-- One clock-hour slot of a production record. -/
structure HourSlot where
  hour : Nat
  unitsProduced : Int := 0
  defectiveUnits : Int := 0
  status : Option String := none
  runningMinutes : Int := 0
  stoppageMinutes : Int := 0
  operatorId : Option Nat := none
  moldId : Option Mold := none
  stoppages : List Stoppage := []
  deriving DecidableEq

/-- One per (machine, calendar day) production record document.
`day` models the calendar day that the JS code extracts from `startTime`. -/
structure ProductionRecord where
  machineId : Nat
  day : Nat
  unitsProduced : Int := 0
  defectiveUnits : Int := 0
  operatorId : Option Nat := none
  moldId : Option Mold := none
  hourlyData : List HourSlot := []
  deriving DecidableEq

/-- Configured shift window.  The JS code stores "HH:MM" strings and keeps
only `parseInt` of the hour part for membership and expansion; the model
keeps the parsed hours directly. -/
structure ShiftDefinition where
  startHour : Nat
  endHour : Nat
  deriving DecidableEq

/-- Request body of POST /stoppage. -/
structure StoppageInput where
  machineId : Nat
  hour : Nat
  day : Nat
  reason : String
  description : Option String := none
  duration : Int
  pendingStoppageId : Option Nat := none
  sapNotificationNumber : Option String := none
  deriving DecidableEq

/-- Request body of POST /production-assignment, after the operator and mold
references have been resolved (the username lookup and ObjectId validity
checks are external-collaborator glue). -/
structure AssignInput where
  machineId : Nat
  day : Nat
  hour : Nat
  operatorId : Option Nat := none
  moldId : Option Mold := none
  defectiveUnits : Option Int := none
  applyToShift : Bool := false
  deriving DecidableEq

/-- Sum of `duration` over a stoppage list, reading a missing duration as 0:
models `stoppages.reduce((sum, s) => sum + (s.duration || 0), 0)`. -/
def stoppageSum (l : List Stoppage) : Int :=
  (l.map (fun s => s.duration.getD 0)).sum

/-- Models `ProductionRecord.findOne({machineId, startTime in day range})`. -/
def lookupRecord (db : List ProductionRecord) (machineId day : Nat) : Option ProductionRecord :=
  db.find? (fun r => r.machineId == machineId && r.day == day)

/-- Models `record.hourlyData.find(h => h.hour === hour)`. -/
def lookupSlot (r : ProductionRecord) (hour : Nat) : Option HourSlot :=
  r.hourlyData.find? (fun h => h.hour == hour)

/-- Millisecond timestamp of `date + hour:00:00`:
models `new Date(date + T + hour padded + :00:00)`. -/
def hourStartMs (day hour : Nat) : Int :=
  (day : Int) * 86400000 + (hour : Int) * 3600000

/-! ### Stoppage reconciliation (POST /stoppage) -/

/-- ASCII whitespace test used to model JS `String.prototype.trim`. -/
def isSpaceChar (c : Char) : Bool :=
  c == ' ' || c == '\t' || c == '\n' || c == '\r'

/-- Models JS `s.trim()` (whitespace stripped from both ends). -/
def trimChars (s : String) : String :=
  ⟨((s.data.dropWhile isSpaceChar).reverse.dropWhile isSpaceChar).reverse⟩

/-- Models the regex test `/^\x64+$/` shape used by the route, i.e. a
nonempty all-digits string (the JS source uses the digit class). -/
def matchesDigits (s : String) : Bool :=
  !s.data.isEmpty && s.data.all Char.isDigit

/-- First validation of POST /stoppage:
`!sapNotificationNumber || sapNotificationNumber.trim() === ''`
(a missing value, the empty string, and all-whitespace strings). -/
def sapBlank : Option String → Bool
  | none => true
  | some s => (trimChars s).data.isEmpty

/-- Second validation of POST /stoppage:
`sapNotificationNumber && !/^\x64+$/.test(sapNotificationNumber.trim())`. -/
def sapPresentNonNumeric : Option String → Bool
  | none => false
  | some s => !s.data.isEmpty && !matchesDigits (trimChars s)

/-- The stoppage appended by the non-pending path (and by the pending path
when no pending stoppage matches), anchored at `date`+`hour`:00. -/
def newStoppage (inp : StoppageInput) : Stoppage :=
  { sid := none
    reason := inp.reason
    description := inp.description
    startTime := hourStartMs inp.day inp.hour
    endTime := some (hourStartMs inp.day inp.hour + inp.duration * 60000)
    duration := some inp.duration
    isPending := false
    isClassified := true
    sapNotificationNumber :=
      if inp.reason == "breakdown" then inp.sapNotificationNumber else none }

/-- In-place finalization of a pending stoppage: reason, description and
(for breakdowns) SAP number are overwritten, endTime is set to now, and the
duration is recomputed from wall-clock elapsed time
(`Math.floor((new Date() - startTime) / 60000)`, a floor division). -/
def finalizeAt (now : Int) (inp : StoppageInput) (s : Stoppage) : Stoppage :=
  { s with
    reason := inp.reason
    description := inp.description
    endTime := some now
    duration := some ((now - s.startTime).fdiv 60000)
    sapNotificationNumber :=
      if inp.reason == "breakdown" then inp.sapNotificationNumber
      else s.sapNotificationNumber
    isPending := false
    isClassified := true }

/-- Predicate of the single `findIndex` pass used to locate the stoppage to
finalize: an id match OR any stoppage whose reason is unclassified. -/
def stoppagePred (pid : Nat) (s : Stoppage) : Bool :=
  s.sid == some pid || s.reason == "unclassified"

/-- Finalize the first stoppage matching `stoppagePred`, or report that none
matched (models `findIndex` followed by the in-place update). -/
def finalizePending (now : Int) (inp : StoppageInput) (pid : Nat) :
    List Stoppage → Option (List Stoppage)
  | [] => none
  | s :: rest =>
      if stoppagePred pid s then some (finalizeAt now inp s :: rest)
      else (finalizePending now inp pid rest).map (fun l => s :: l)

/-- The slot mutation performed by POST /stoppage once the hour slot has
been found or created.  Only the non-pending append path recomputes the
cached `stoppageMinutes`; both paths set the slot status to stoppage. -/
def applyStoppageToSlot (now : Int) (inp : StoppageInput) (slot : HourSlot) : HourSlot :=
  match inp.pendingStoppageId with
  | some pid =>
      match finalizePending now inp pid slot.stoppages with
      | some st => { slot with stoppages := st, status := some ("stoppage") }
      | none =>
          { slot with stoppages := slot.stoppages ++ [newStoppage inp]
                      status := some ("stoppage") }
  | none =>
      let st := slot.stoppages ++ [newStoppage inp]
      { slot with stoppages := st
                  stoppageMinutes := stoppageSum st
                  status := some ("stoppage") }

/-- The hour slot created by POST /stoppage when none exists for the hour. -/
def freshStoppageSlot (hour : Nat) : HourSlot :=
  { hour := hour, unitsProduced := 0, defectiveUnits := 0
    status := some ("stoppage"), runningMinutes := 0, stoppageMinutes := 0
    operatorId := none, moldId := none, stoppages := [] }

/-- The record created lazily when no record exists for (machine, day). -/
def freshRecord (machineId day : Nat) : ProductionRecord :=
  { machineId := machineId, day := day, unitsProduced := 0, defectiveUnits := 0
    operatorId := none, moldId := none, hourlyData := [] }

/-- Record-level part of POST /stoppage: find-or-create the hour slot and
apply the slot mutation to it. -/
def stoppageSlotUpdate (now : Int) (inp : StoppageInput) (r : ProductionRecord) :
    ProductionRecord :=
  { r with hourlyData :=
      (findOrCreateUpdate (fun h => h.hour == inp.hour)
        (applyStoppageToSlot now inp) (freshStoppageSlot inp.hour) r.hourlyData) }

/-- POST /stoppage: SAP validation happens before any lookup or mutation;
on success the (machine, day) record is found or created, mutated, saved. -/
def recordStoppage (now : Int) (db : List ProductionRecord) (inp : StoppageInput) :
    Except String (List ProductionRecord) :=
  if inp.reason == "breakdown" && sapBlank inp.sapNotificationNumber then
    .error ("SAP notification number is required for breakdown stoppages")
  else if inp.reason == "breakdown" && sapPresentNonNumeric inp.sapNotificationNumber then
    .error ("SAP notification number must contain only numbers")
  else
    .ok (findOrCreateUpdate
      (fun r => r.machineId == inp.machineId && r.day == inp.day)
      (stoppageSlotUpdate now inp) (freshRecord inp.machineId inp.day) db)

/-! ### Shift calendar resolver and production assignment
(POST /production-assignment) -/

/-- `for (h = a; h < b; h++)` collecting h. -/
def rangeFromTo (a b : Nat) : List Nat :=
  (List.range (b - a)).map (fun i => a + i)

/-- Shift membership: same-day window when startHour is at most endHour,
otherwise the midnight-crossing disjunction. -/
def shiftContains (s : ShiftDefinition) (hour : Nat) : Bool :=
  if s.startHour ≤ s.endHour then s.startHour ≤ hour && hour < s.endHour
  else s.startHour ≤ hour || hour < s.endHour

/-- Expansion of a shift from an anchor hour.  A midnight-crossing shift
expands only the side of midnight that the anchor falls on; the JS code
resets the hour list to empty first, so an anchor on neither side (possible
only when the shift does not contain it) yields the empty list. -/
def expandShift (s : ShiftDefinition) (hour : Nat) : List Nat :=
  if s.startHour ≤ s.endHour then rangeFromTo s.startHour s.endHour
  else if s.startHour ≤ hour then rangeFromTo s.startHour 24
  else if hour < s.endHour then rangeFromTo 0 s.endHour
  else []

/-- Hours updated by one assignment request: the single requested hour
unless applyToShift finds a configured shift containing it. -/
def hoursToUpdate (shifts : List ShiftDefinition) (hour : Nat) (applyToShift : Bool) :
    List Nat :=
  if applyToShift then
    match shifts.find? (fun s => shiftContains s hour) with
    | some s => expandShift s hour
    | none => [hour]
  else [hour]

/-- The slot created for an hour that has no slot yet: operator and mold
are seeded only here, and only when the request resolved them. -/
def freshAssignSlot (inp : AssignInput) (targetHour : Nat) : HourSlot :=
  { hour := targetHour, unitsProduced := 0, defectiveUnits := 0
    status := some ("inactive"), runningMinutes := 0, stoppageMinutes := 0
    operatorId := inp.operatorId, moldId := inp.moldId, stoppages := [] }

/-- The only mutation applied to the found-or-created slot of a target
hour: defectiveUnits is overwritten, and only when the target hour is the
originally requested hour and the request carried a defectiveUnits value. -/
def assignTouch (inp : AssignInput) (targetHour : Nat) (hd : HourSlot) : HourSlot :=
  if targetHour == inp.hour then
    match inp.defectiveUnits with
    | some d => { hd with defectiveUnits := d }
    | none => hd
  else hd

/-- Find-or-create then mutate the slot of one target hour. -/
def assignHourSlot (inp : AssignInput) (targetHour : Nat) (slots : List HourSlot) :
    List HourSlot :=
  findOrCreateUpdate (fun h => h.hour == targetHour)
    (assignTouch inp targetHour) (freshAssignSlot inp targetHour) slots

/-- Record-level part of POST /production-assignment: update every hour of
the expanded set, then recompute the record-level defectiveUnits as the sum
over all slots. -/
def applyAssignment (shifts : List ShiftDefinition) (inp : AssignInput)
    (r : ProductionRecord) : ProductionRecord :=
  let slots := (hoursToUpdate shifts inp.hour inp.applyToShift).foldl
    (fun acc th => assignHourSlot inp th acc) r.hourlyData
  { r with hourlyData := slots
           defectiveUnits := (slots.map (fun h => h.defectiveUnits)).sum }

/-- POST /production-assignment at the store level: find-or-create the
(machine, day) record and apply the assignment; no machine lookup occurs. -/
def productionAssignment (shifts : List ShiftDefinition) (db : List ProductionRecord)
    (inp : AssignInput) : List ProductionRecord :=
  findOrCreateUpdate
    (fun r => r.machineId == inp.machineId && r.day == inp.day)
    (applyAssignment shifts inp) (freshRecord inp.machineId inp.day) db

/-! ### Timeline synthesizer (GET /production-timeline/:machineId) -/

/-- One emitted hour entry of the timeline. -/
structure TimelineHour where
  hour : Nat
  unitsProduced : Int
  defectiveUnits : Int
  status : String
  operator : Option Nat
  mold : Option Mold
  stoppages : List Stoppage
  runningMinutes : Int
  stoppageMinutes : Int
  deriving DecidableEq

/-- One emitted day entry of the timeline. -/
structure TimelineDay where
  date : Nat
  hours : List TimelineHour
  deriving DecidableEq

/-- Status derivation of the timeline route when the slot stores none. -/
def deriveStatus (rm sm : Int) : String :=
  if rm > 0 then (if sm > rm then "stoppage" else "running")
  else if sm > 0 then "stoppage" else "inactive"

/-- The hour slot shown for an hour: the day record, if any, searched for a
slot with that hour value. -/
def slotOf (recOpt : Option ProductionRecord) (hour : Nat) : Option HourSlot :=
  recOpt.bind (fun r => r.hourlyData.find? (fun h => h.hour == hour))

/-- runningMinutes emitted for an hour (slot value or 0). -/
def slotRunningMinutes (recOpt : Option ProductionRecord) (hour : Nat) : Int :=
  ((slotOf recOpt hour).map (fun h => h.runningMinutes)).getD 0

/-- stoppageMinutes emitted for an hour: recomputed from the stoppage list
of the slot, never read from the cached slot field. -/
def slotStoppageMinutes (recOpt : Option ProductionRecord) (hour : Nat) : Int :=
  ((slotOf recOpt hour).map (fun h => stoppageSum h.stoppages)).getD 0

/-- Operator shown for an hour: `hourData?.operatorId || dayRecord?.operatorId`. -/
def emittedOperator (recOpt : Option ProductionRecord) (hour : Nat) : Option Nat :=
  ((slotOf recOpt hour).bind (fun h => h.operatorId)).orElse
    (fun _ => recOpt.bind (fun r => r.operatorId))

/-- Mold shown for an hour: `hourData?.moldId || dayRecord?.moldId`. -/
def emittedMold (recOpt : Option ProductionRecord) (hour : Nat) : Option Mold :=
  ((slotOf recOpt hour).bind (fun h => h.moldId)).orElse
    (fun _ => recOpt.bind (fun r => r.moldId))

/-- One emitted hour entry: zero-filled when no slot exists, explicit slot
status preferred over the derived one, operator and mold falling back from
the slot to the day record. -/
def buildHour (recOpt : Option ProductionRecord) (hour : Nat) : TimelineHour :=
  { hour := hour
    unitsProduced := ((slotOf recOpt hour).map (fun h => h.unitsProduced)).getD 0
    defectiveUnits := ((slotOf recOpt hour).map (fun h => h.defectiveUnits)).getD 0
    status := ((slotOf recOpt hour).bind (fun h => h.status)).getD
      (deriveStatus (slotRunningMinutes recOpt hour) (slotStoppageMinutes recOpt hour))
    operator := emittedOperator recOpt hour
    mold := emittedMold recOpt hour
    stoppages := ((slotOf recOpt hour).map (fun h => h.stoppages)).getD []
    runningMinutes := slotRunningMinutes recOpt hour
    stoppageMinutes := slotStoppageMinutes recOpt hour }

/-- One emitted day: the record matching the calendar day, then a dense 24
hour grid. -/
def buildDay (records : List ProductionRecord) (day : Nat) : TimelineDay :=
  { date := day
    hours := (List.range 24).map (buildHour (records.find? (fun r => r.day == day))) }

/-- The days of the inclusive loop `for (d = startDate; d <= endDate; ...)`. -/
def dayRange (startDay endDay : Nat) : List Nat :=
  (List.range (endDay + 1 - startDay)).map (fun i => startDay + i)

/-- Timeline synthesis over an inclusive day range. -/
def buildTimeline (records : List ProductionRecord) (startDay endDay : Nat) :
    List TimelineDay :=
  (dayRange startDay endDay).map (buildDay records)

/-- Records of one machine intersecting the query window. -/
def recordsInRange (records : List ProductionRecord) (machineId startDay endDay : Nat) :
    List ProductionRecord :=
  records.filter (fun r => r.machineId == machineId && startDay ≤ r.day && r.day ≤ endDay)

/-- GET /production-timeline/:machineId: the machine reference is resolved
before any data is read; an unknown machine yields the 404 error. -/
def productionTimeline (machines : List Nat) (machineId : Nat)
    (records : List ProductionRecord) (startDay endDay : Nat) :
    Except String (List TimelineDay) :=
  if machines.contains machineId then
    .ok (buildTimeline (recordsInRange records machineId startDay endDay) startDay endDay)
  else .error ("Machine not found")

/-! ### OEE aggregator (GET /machine-stats/:machineId) -/

/-- Internal metrics computed by the stats route (ratios kept as exact
rationals; the HTTP payload additionally rounds them to percentages). -/
structure Stats where
  totalUnitsProduced : Int
  totalDefectiveUnits : Int
  totalRunningMinutes : Int
  totalStoppageMinutes : Int
  totalStoppages : Nat
  breakdownStoppages : Nat
  totalBreakdownMinutes : Int
  availability : ℚ
  quality : ℚ
  performance : ℚ
  oee : ℚ
  mtbf : ℚ
  mttr : ℚ
  deriving DecidableEq

/-- All hour slots of a record set, in order. -/
def allSlots (records : List ProductionRecord) : List HourSlot :=
  records.flatMap (fun r => r.hourlyData)

/-- The populated production capacity of the mold assigned to a slot, when
that capacity is JS-truthy (present and nonzero); both accumulation passes
of the stats route guard on exactly this condition. -/
def moldCapacity (h : HourSlot) : Option Int :=
  match h.moldId with
  | some m =>
      match m.productionCapacityPerHour with
      | some c => if c = 0 then none else some c
      | none => none
  | none => none

/-- First accumulation pass: capacity per minute times actual running time. -/
def expectedFromRunning (h : HourSlot) : ℚ :=
  match moldCapacity h with
  | some c => (c : ℚ) / 60 * (h.runningMinutes : ℚ)
  | none => 0

/-- Second accumulation pass: a flat capacityPerHour per slot with a mold. -/
def expectedFlat (h : HourSlot) : ℚ :=
  match moldCapacity h with
  | some c => (c : ℚ)
  | none => 0

/-- Both passes feed the same total (the double accumulation preserved from
the source). -/
def totalExpectedUnits (records : List ProductionRecord) : ℚ :=
  ((allSlots records).map expectedFromRunning).sum
    + ((allSlots records).map expectedFlat).sum

/-- Combined per-slot contribution written the way the spec describes the
double accumulation, for comparison with the two-pass source computation. -/
def expectedCombined (h : HourSlot) : ℚ :=
  match moldCapacity h with
  | some c => (c : ℚ) / 60 * (h.runningMinutes : ℚ) + (c : ℚ)
  | none => 0

def totalUnitsProducedOf (records : List ProductionRecord) : Int :=
  (records.map (fun r => r.unitsProduced)).sum

def totalDefectiveUnitsOf (records : List ProductionRecord) : Int :=
  (records.map (fun r => r.defectiveUnits)).sum

def totalRunningMinutesOf (records : List ProductionRecord) : Int :=
  ((allSlots records).map (fun h => h.runningMinutes)).sum

/-- The stats route reads the cached per-slot stoppageMinutes field here. -/
def totalStoppageMinutesOf (records : List ProductionRecord) : Int :=
  ((allSlots records).map (fun h => h.stoppageMinutes)).sum

/-- All stoppages of a record set. -/
def allStoppages (records : List ProductionRecord) : List Stoppage :=
  (allSlots records).flatMap (fun h => h.stoppages)

/-- Only stoppages with reason breakdown count toward MTBF and MTTR. -/
def breakdownListOf (records : List ProductionRecord) : List Stoppage :=
  (allStoppages records).filter (fun s => s.reason == "breakdown")

def totalBreakdownMinutesOf (records : List ProductionRecord) : Int :=
  ((breakdownListOf records).map (fun s => s.duration.getD 0)).sum

def availabilityOf (records : List ProductionRecord) : ℚ :=
  if totalRunningMinutesOf records + totalStoppageMinutesOf records > 0 then
    (totalRunningMinutesOf records : ℚ)
      / ((totalRunningMinutesOf records + totalStoppageMinutesOf records : Int) : ℚ)
  else 0

def qualityOf (records : List ProductionRecord) : ℚ :=
  if totalUnitsProducedOf records > 0 then
    ((totalUnitsProducedOf records - totalDefectiveUnitsOf records : Int) : ℚ)
      / (totalUnitsProducedOf records : ℚ)
  else 0

def performanceOf (records : List ProductionRecord) : ℚ :=
  if totalExpectedUnits records > 0 then
    (totalUnitsProducedOf records : ℚ) / totalExpectedUnits records
  else 0

def mtbfOf (records : List ProductionRecord) : ℚ :=
  if (breakdownListOf records).length > 0 then
    (totalRunningMinutesOf records : ℚ) / ((breakdownListOf records).length : ℚ)
  else 0

def mttrOf (records : List ProductionRecord) : ℚ :=
  if (breakdownListOf records).length > 0 then
    (totalBreakdownMinutesOf records : ℚ) / ((breakdownListOf records).length : ℚ)
  else 0

/-- The aggregation of GET /machine-stats/:machineId over a record set. -/
def computeStats (records : List ProductionRecord) : Stats :=
  { totalUnitsProduced := totalUnitsProducedOf records
    totalDefectiveUnits := totalDefectiveUnitsOf records
    totalRunningMinutes := totalRunningMinutesOf records
    totalStoppageMinutes := totalStoppageMinutesOf records
    totalStoppages := ((allSlots records).map (fun h => h.stoppages.length)).sum
    breakdownStoppages := (breakdownListOf records).length
    totalBreakdownMinutes := totalBreakdownMinutesOf records
    availability := availabilityOf records
    quality := qualityOf records
    performance := performanceOf records
    oee := availabilityOf records * qualityOf records * performanceOf records
    mtbf := mtbfOf records
    mttr := mttrOf records }

/-- GET /machine-stats/:machineId: machine resolution precedes the query. -/
def machineStats (machines : List Nat) (machineId : Nat)
    (records : List ProductionRecord) (startDay endDay : Nat) :
    Except String Stats :=
  if machines.contains machineId then
    .ok (computeStats (recordsInRange records machineId startDay endDay))
  else .error ("Machine not found")

/-! ### Definitions following the spec wording, for comparison -/

/-- Status derivation as worded by the spec: inactive when both minute
counters are zero, else stoppage when stoppageMinutes exceeds
runningMinutes, else running. -/
def statusSpec (rm sm : Int) : String :=
  if rm = 0 ∧ sm = 0 then "inactive" else if sm > rm then "stoppage" else "running"

/-! ### Shared lemmas about the stoppage write path -/

/-- The record that POST /stoppage mutates: the stored one or a fresh one. -/
def baseRecord (db : List ProductionRecord) (inp : StoppageInput) : ProductionRecord :=
  (lookupRecord db inp.machineId inp.day).getD (freshRecord inp.machineId inp.day)

/-- The slot that POST /stoppage mutates inside `baseRecord`. -/
def baseSlot (db : List ProductionRecord) (inp : StoppageInput) : HourSlot :=
  (lookupSlot (baseRecord db inp) inp.hour).getD (freshStoppageSlot inp.hour)

theorem applyStoppageToSlot_hour (now : Int) (inp : StoppageInput) (s : HourSlot) :
    (applyStoppageToSlot now inp s).hour = s.hour := by
  unfold applyStoppageToSlot
  cases hp : inp.pendingStoppageId with
  | none => rfl
  | some pid =>
      cases hf : finalizePending now inp pid s.stoppages <;> simp [hf]

theorem lookupSlot_stoppageSlotUpdate (now : Int) (inp : StoppageInput)
    (r : ProductionRecord) :
    lookupSlot (stoppageSlotUpdate now inp r) inp.hour
      = some (applyStoppageToSlot now inp
          ((lookupSlot r inp.hour).getD (freshStoppageSlot inp.hour))) := by
  unfold lookupSlot stoppageSlotUpdate
  exact find?_findOrCreateUpdate _ _ _
    (fun s => by rw [applyStoppageToSlot_hour]) (by simp [freshStoppageSlot]) _

theorem lookupRecord_recordStoppage (now : Int) (db : List ProductionRecord)
    (inp : StoppageInput) (db' : List ProductionRecord)
    (h : recordStoppage now db inp = Except.ok db') :
    lookupRecord db' inp.machineId inp.day
      = some (stoppageSlotUpdate now inp (baseRecord db inp)) := by
  unfold recordStoppage at h
  by_cases h1 : inp.reason == "breakdown" && sapBlank inp.sapNotificationNumber
  · rw [if_pos h1] at h; exact absurd h (by simp)
  rw [if_neg h1] at h
  by_cases h2 : inp.reason == "breakdown" && sapPresentNonNumeric inp.sapNotificationNumber
  · rw [if_pos h2] at h; exact absurd h (by simp)
  rw [if_neg h2] at h
  have hdb : db' = findOrCreateUpdate
      (fun r => r.machineId == inp.machineId && r.day == inp.day)
      (stoppageSlotUpdate now inp) (freshRecord inp.machineId inp.day) db :=
    (Except.ok.inj h).symm
  rw [hdb]
  unfold lookupRecord baseRecord lookupRecord
  exact find?_findOrCreateUpdate
    (fun r => r.machineId == inp.machineId && r.day == inp.day)
    (stoppageSlotUpdate now inp) (freshRecord inp.machineId inp.day)
    (fun r => rfl) (by simp [freshRecord]) db

/-! ### Claim C1 -/

/-- Claim C1 (amended): after a successful stoppage submission, the target
slot satisfies the stoppageMinutes-equals-sum-of-durations invariant only
on the append path (no pendingStoppageId); a submission carrying a
pendingStoppageId — finalize in place or synthesized replacement alike —
leaves the cached stoppageMinutes at its prior value. -/
theorem claim1_stoppage_minutes (now : Int) (db : List ProductionRecord)
    (inp : StoppageInput) (db2 : List ProductionRecord)
    (h : recordStoppage now db inp = Except.ok db2) :
    ∃ r slot, lookupRecord db2 inp.machineId inp.day = some r ∧
      lookupSlot r inp.hour = some slot ∧
      (inp.pendingStoppageId = none →
        slot.stoppageMinutes = stoppageSum slot.stoppages) ∧
      (inp.pendingStoppageId ≠ none →
        slot.stoppageMinutes = (baseSlot db inp).stoppageMinutes) := by
  refine ⟨stoppageSlotUpdate now inp (baseRecord db inp),
    applyStoppageToSlot now inp (baseSlot db inp),
    lookupRecord_recordStoppage now db inp db2 h, ?_, ?_, ?_⟩
  · rw [lookupSlot_stoppageSlotUpdate]; rfl
  · intro hpid
    simp [applyStoppageToSlot, hpid, stoppageSum]
  · intro hpid
    cases hp : inp.pendingStoppageId with
    | none => exact absurd hp hpid
    | some pid =>
        cases hf : finalizePending now inp pid (baseSlot db inp).stoppages <;>
          simp [applyStoppageToSlot, hp, hf]

/-- Input of the C1 counterexample: a pending reference that matches no
stored stoppage, driving the synthesized-replacement path. -/
def inpC1 : StoppageInput :=
  { machineId := 1, hour := 2, day := 0, reason := "other", duration := 5,
    pendingStoppageId := some 9 }

/-- Claim C1 counterexample: on the synthesized-replacement path the slot
ends with cached stoppageMinutes 0 while the sum of durations is 5, so the
invariant claimed for every successful submission fails. -/
theorem claim1_counterexample :
    ((((recordStoppage 0 [] inpC1).toOption.bind
        (fun db => lookupRecord db 1 0)).bind (fun r => lookupSlot r 2)).map
      (fun s => (s.stoppageMinutes, stoppageSum s.stoppages))) = some (0, 5) ∧
    (0 : Int) ≠ (5 : Int) :=
  ⟨by decide, by decide⟩

def inpW1 : StoppageInput :=
  { machineId := 3, hour := 4, day := 1, reason := "planned", duration := 6 }

def dbW1 : List ProductionRecord := (recordStoppage 0 [] inpW1).toOption.getD []

/-- Concrete instance of the C1 theorem on an append-path submission. -/
theorem claim1_witness :
    ∃ r slot, lookupRecord dbW1 inpW1.machineId inpW1.day = some r ∧
      lookupSlot r inpW1.hour = some slot ∧
      (inpW1.pendingStoppageId = none →
        slot.stoppageMinutes = stoppageSum slot.stoppages) ∧
      (inpW1.pendingStoppageId ≠ none →
        slot.stoppageMinutes = (baseSlot [] inpW1).stoppageMinutes) :=
  claim1_stoppage_minutes 0 [] inpW1 dbW1 rfl

/-! ### Claim C2 -/

theorem sum_map_expected_split (l : List HourSlot) :
    (l.map expectedCombined).sum
      = (l.map expectedFromRunning).sum + (l.map expectedFlat).sum := by
  induction l with
  | nil => simp
  | cons x xs ih =>
      simp only [List.map_cons, List.sum_cons, ih]
      have hx : expectedCombined x = expectedFromRunning x + expectedFlat x := by
        unfold expectedCombined expectedFromRunning expectedFlat
        cases moldCapacity x <;> simp
      rw [hx]; ring

def moldScenario : Mold := { mid := 1, productionCapacityPerHour := some 120 }

def slotScenario (h : Nat) : HourSlot :=
  { hour := h, unitsProduced := 125, defectiveUnits := 0, status := some ("running"),
    runningMinutes := 60, stoppageMinutes := 15, operatorId := none,
    moldId := some moldScenario, stoppages := [] }

/-- The stats scenario of the spec: 8 hours with one mold of capacity 120,
total runningMinutes 480, stoppageMinutes 120, 1000 units, 50 defective. -/
def recordScenario : ProductionRecord :=
  { machineId := 1, day := 0, unitsProduced := 1000, defectiveUnits := 50,
    operatorId := none, moldId := none,
    hourlyData := [slotScenario 0, slotScenario 1, slotScenario 2, slotScenario 3,
      slotScenario 4, slotScenario 5, slotScenario 6, slotScenario 7] }

/-- Claim C2: expected units accumulate twice over the same hours — per
mold-assigned hour both capacity/60 times runningMinutes and a flat
capacity feed one total — and performance divides unitsProduced by that
double-accumulated total; on the documented scenario the total is 1920
(960 from each pass) and performance is 1000/1920. -/
theorem claim2_expected_units_double (records : List ProductionRecord) :
    totalExpectedUnits records = ((allSlots records).map expectedCombined).sum ∧
    (computeStats records).performance
      = (if totalExpectedUnits records > 0
         then (totalUnitsProducedOf records : ℚ) / totalExpectedUnits records
         else 0) ∧
    totalExpectedUnits [recordScenario] = 1920 ∧
    (computeStats [recordScenario]).performance = 1000 / 1920 := by
  have hexp : totalExpectedUnits [recordScenario] = 1920 := by
    norm_num [totalExpectedUnits, allSlots, recordScenario, slotScenario,
      moldScenario, expectedFromRunning, expectedFlat, moldCapacity]
  have hunits : totalUnitsProducedOf [recordScenario] = 1000 := rfl
  refine ⟨(sum_map_expected_split (allSlots records)).symm, rfl, hexp, ?_⟩
  show performanceOf [recordScenario] = 1000 / 1920
  rw [performanceOf, hexp, hunits, if_pos (by norm_num)]
  norm_num

/-! ### Claim C3 -/

/-- Claim C3 (amended): a breakdown stoppage submission whose SAP number is
missing, blank after trimming, or whose trimmed value contains a non-digit
character fails validation before any lookup or mutation, so no record is
created or modified (the check is applied to the trimmed value, so
surrounding whitespace around an all-digits value is accepted). -/
theorem claim3_breakdown_sap_validation (now : Int) (db : List ProductionRecord)
    (inp : StoppageInput) (hb : inp.reason = "breakdown")
    (hbad : inp.sapNotificationNumber = none ∨
      ∃ s, inp.sapNotificationNumber = some s ∧
        ((trimChars s).data.isEmpty = true ∨
          (trimChars s).data.all Char.isDigit = false)) :
    ∃ msg, recordStoppage now db inp = Except.error msg := by
  unfold recordStoppage
  rcases hbad with hnone | ⟨s, hs, hcase⟩
  · have hc1 : (inp.reason == "breakdown" && sapBlank inp.sapNotificationNumber)
        = true := by rw [hb, hnone]; rfl
    rw [if_pos hc1]
    exact ⟨_, rfl⟩
  · by_cases hemp : (trimChars s).data.isEmpty = true
    · have hc1 : (inp.reason == "breakdown" && sapBlank inp.sapNotificationNumber)
          = true := by rw [hb, hs]; simp [sapBlank, hemp]
      rw [if_pos hc1]
      exact ⟨_, rfl⟩
    · rw [Bool.not_eq_true] at hemp
      rcases hcase with h1 | h2
      · exact absurd h1 (by simp [hemp])
      · have hsne : s.data.isEmpty = false := by
          cases hsd : s.data with
          | nil =>
              exfalso
              have htc : trimChars s = ⟨[]⟩ := by simp [trimChars, hsd]
              rw [htc] at hemp
              exact absurd hemp (by simp)
          | cons a l => rfl
        have hc1 : (inp.reason == "breakdown" && sapBlank inp.sapNotificationNumber)
            = false := by rw [hb, hs]; simp [sapBlank, hemp]
        have hc2 : (inp.reason == "breakdown"
            && sapPresentNonNumeric inp.sapNotificationNumber) = true := by
          rw [hb, hs]
          simp [sapPresentNonNumeric, matchesDigits, hsne, h2, hemp]
        rw [if_neg (by simp [hc1]), if_pos hc2]
        exact ⟨_, rfl⟩

/-- Input of the C3 counterexample: a SAP number containing a non-digit
(a leading space) that nevertheless passes the trimmed validation. -/
def inpC3 : StoppageInput :=
  { machineId := 1, hour := 4, day := 0, reason := "breakdown", duration := 12,
    sapNotificationNumber := some (" 123") }

/-- Claim C3 counterexample: the submitted SAP number contains a non-digit
character, yet the breakdown submission succeeds, because the route only
validates the trimmed value. -/
theorem claim3_counterexample :
    inpC3.reason = "breakdown" ∧
    inpC3.sapNotificationNumber = some (" 123") ∧
    (" 123").data.all Char.isDigit = false ∧
    (recordStoppage 0 [] inpC3).toOption.isSome = true :=
  ⟨rfl, rfl, by decide, by decide⟩

def inpW3 : StoppageInput :=
  { machineId := 1, hour := 4, day := 0, reason := "breakdown", duration := 12,
    sapNotificationNumber := some ("ABC123") }

/-- Concrete instance of the C3 theorem on the documented bad input. -/
theorem claim3_witness : ∃ msg, recordStoppage 0 [] inpW3 = Except.error msg :=
  claim3_breakdown_sap_validation 0 [] inpW3 rfl
    (Or.inr ⟨"ABC123", rfl, Or.inr (by decide)⟩)

/-! ### Claim C4 -/

/-- Claim C4 (amended): when a submission carries a pendingStoppageId, a
single scan selects the first stoppage satisfying the disjunction
id-matches-the-reference OR reason-is-unclassified (an earlier unclassified
stoppage is selected even when a later stoppage matches the id); the
selected stoppage is finalized in place with endTime now, duration
recomputed as the floor of the elapsed milliseconds over 60000 (overriding
any stored estimate), isPending cleared and isClassified set; when nothing
matches, the scan reports none (and the route synthesizes a replacement). -/
theorem claim4_pending_selection (now : Int) (inp : StoppageInput) (pid : Nat) :
    (∀ xs : List Stoppage, (∀ t ∈ xs, stoppagePred pid t = false) →
      finalizePending now inp pid xs = none) ∧
    (∀ (pre post : List Stoppage) (s : Stoppage),
      (∀ t ∈ pre, stoppagePred pid t = false) → stoppagePred pid s = true →
      finalizePending now inp pid (pre ++ s :: post)
        = some (pre ++ finalizeAt now inp s :: post)) ∧
    (∀ s : Stoppage, (finalizeAt now inp s).endTime = some now ∧
      (finalizeAt now inp s).duration = some ((now - s.startTime).fdiv 60000) ∧
      (finalizeAt now inp s).isPending = false ∧
      (finalizeAt now inp s).isClassified = true ∧
      (finalizeAt now inp s).reason = inp.reason) ∧
    (∀ (slot : HourSlot) (st : List Stoppage), inp.pendingStoppageId = some pid →
      finalizePending now inp pid slot.stoppages = some st →
      applyStoppageToSlot now inp slot
        = { slot with stoppages := st, status := some ("stoppage") }) := by
  refine ⟨?_, ?_, fun s => ⟨rfl, rfl, rfl, rfl, rfl⟩, ?_⟩
  · intro xs
    induction xs with
    | nil => intro _; rfl
    | cons t ts ih =>
        intro hall
        have ht : stoppagePred pid t = false := hall t (List.mem_cons_self t ts)
        rw [finalizePending, if_neg (by simp [ht]),
          ih (fun x hx => hall x (List.mem_cons_of_mem t hx))]
        rfl
  · intro pre
    induction pre with
    | nil =>
        intro post s _ hps
        show finalizePending now inp pid (s :: post) = _
        rw [finalizePending, if_pos hps]
        rfl
    | cons t ts ih =>
        intro post s hall hps
        have ht : stoppagePred pid t = false := hall t (List.mem_cons_self t ts)
        show finalizePending now inp pid (t :: (ts ++ s :: post)) = _
        rw [finalizePending, if_neg (by simp [ht]),
          ih post s (fun x hx => hall x (List.mem_cons_of_mem t hx)) hps]
        rfl
  · intro slot st hp hf
    simp only [applyStoppageToSlot, hp, hf]

/-- The unclassified pending stoppage stored first in the C4 scenario. -/
def stopU : Stoppage :=
  { sid := some 1, reason := "unclassified", startTime := 0, duration := some 0,
    isPending := true, isClassified := false }

/-- The stoppage whose id matches the pending reference, stored second. -/
def stopT : Stoppage :=
  { sid := some 2, reason := "other", startTime := 0, endTime := some 420000,
    duration := some 7, isPending := false, isClassified := true }

def slotC4 : HourSlot :=
  { hour := 2, unitsProduced := 0, defectiveUnits := 0,
    status := some ("stoppage"), runningMinutes := 0, stoppageMinutes := 7,
    operatorId := none, moldId := none, stoppages := [stopU, stopT] }

def dbC4 : List ProductionRecord :=
  [{ machineId := 1, day := 0, unitsProduced := 0, defectiveUnits := 0,
     operatorId := none, moldId := none, hourlyData := [slotC4] }]

def inpC4 : StoppageInput :=
  { machineId := 1, hour := 2, day := 0, reason := "material_shortage",
    duration := 3, pendingStoppageId := some 2 }

/-- Claim C4 counterexample: the reference id 2 matches the second stored
stoppage, yet the first (unclassified, id 1) is the one finalized — its
reason becomes the submitted one and its duration is recomputed to 10 —
while the id-matching stoppage is left untouched, contradicting the claim
that the id match is selected whenever it exists. -/
theorem claim4_counterexample :
    stopT.sid = some 2 ∧ stopU.sid ≠ some 2 ∧
    ((((recordStoppage 600000 dbC4 inpC4).toOption.bind
        (fun db => lookupRecord db 1 0)).bind (fun r => lookupSlot r 2)).map
      (fun s => s.stoppages.map (fun t => (t.reason, t.duration, t.endTime))))
      = some [("material_shortage", some 10, some 600000),
              ("other", some 7, some 420000)] :=
  ⟨rfl, by decide, by decide⟩

def inpW4 : StoppageInput :=
  { machineId := 1, hour := 2, day := 0, reason := "planned", duration := 3,
    pendingStoppageId := some 2 }

/-- Concrete instance of the C4 theorem. -/
theorem claim4_witness :
    finalizePending 600000 inpW4 2 [] = none ∧
    finalizePending 600000 inpW4 2 ([] ++ stopT :: [])
      = some ([] ++ finalizeAt 600000 inpW4 stopT :: []) ∧
    (finalizeAt 600000 inpW4 stopT).duration
      = some ((600000 - stopT.startTime).fdiv 60000) :=
  ⟨(claim4_pending_selection 600000 inpW4 2).1 [] (by simp),
   (claim4_pending_selection 600000 inpW4 2).2.1 [] [] stopT (by simp) (by decide),
   ((claim4_pending_selection 600000 inpW4 2).2.2.1 stopT).2.1⟩

/-! ### Claim C5 -/

theorem deriveStatus_eq_statusSpec (rm sm : Int) (h1 : 0 ≤ rm) (h2 : 0 ≤ sm) :
    deriveStatus rm sm = statusSpec rm sm := by
  unfold deriveStatus statusSpec
  split_ifs <;> first | rfl | omega

/-- Claim C5: the timeline always emits one entry per calendar day of the
inclusive range and one entry per hour 0 to 23; with zero stored records
every entry is zero-filled with status inactive; the emitted
stoppageMinutes is recomputed as the sum of the stoppage durations of the
slot; when the slot stores no explicit status the emitted status follows
the derivation of the spec (on the nonnegative minute counters actually
produced by the system), and an explicit slot status takes precedence. -/
theorem claim5_timeline_dense (records : List ProductionRecord)
    (startDay endDay : Nat) :
    ((buildTimeline records startDay endDay).map (fun d => d.date)
      = dayRange startDay endDay) ∧
    (∀ d, startDay ≤ d → d ≤ endDay →
      d ∈ (buildTimeline records startDay endDay).map (fun d => d.date)) ∧
    (∀ de ∈ buildTimeline records startDay endDay,
      de.hours.length = 24 ∧ de.hours.map (fun e => e.hour) = List.range 24) ∧
    (∀ de ∈ buildTimeline ([] : List ProductionRecord) startDay endDay,
      ∀ he ∈ de.hours,
        he.unitsProduced = 0 ∧ he.defectiveUnits = 0 ∧ he.status = "inactive" ∧
        he.operator = none ∧ he.mold = none ∧ he.stoppages = [] ∧
        he.runningMinutes = 0 ∧ he.stoppageMinutes = 0) ∧
    (∀ de ∈ buildTimeline records startDay endDay, ∀ he ∈ de.hours,
      he.stoppageMinutes = stoppageSum he.stoppages) ∧
    (∀ (recOpt : Option ProductionRecord) (i : Nat), (buildHour recOpt i).status
      = ((slotOf recOpt i).bind (fun h => h.status)).getD
          (deriveStatus (slotRunningMinutes recOpt i) (slotStoppageMinutes recOpt i))) ∧
    (∀ rm sm : Int, 0 ≤ rm → 0 ≤ sm → deriveStatus rm sm = statusSpec rm sm) := by
  have hdates : (buildTimeline records startDay endDay).map (fun d => d.date)
      = dayRange startDay endDay := by
    rw [buildTimeline, List.map_map]
    exact List.map_id _
  refine ⟨hdates, ?_, ?_, ?_, ?_, fun recOpt i => rfl, deriveStatus_eq_statusSpec⟩
  · intro d hd1 hd2
    rw [hdates, dayRange]
    exact List.mem_map.mpr ⟨d - startDay, List.mem_range.mpr (by omega), by omega⟩
  · intro de hde
    rcases List.mem_map.mp hde with ⟨d, _, rfl⟩
    constructor
    · show ((List.range 24).map (buildHour _)).length = 24
      simp
    · show ((List.range 24).map (buildHour _)).map (fun e => e.hour) = List.range 24
      rw [List.map_map]
      exact List.map_id _
  · intro de hde he hhe
    rcases List.mem_map.mp hde with ⟨d, _, rfl⟩
    have hsl : (buildDay [] d).hours = (List.range 24).map (buildHour none) := rfl
    rw [hsl] at hhe
    rcases List.mem_map.mp hhe with ⟨i, _, rfl⟩
    exact ⟨rfl, rfl, rfl, rfl, rfl, rfl, rfl, rfl⟩
  · intro de hde he hhe
    rcases List.mem_map.mp hde with ⟨d, _, rfl⟩
    have hsl : (buildDay records d).hours
        = (List.range 24).map (buildHour (records.find? (fun r => r.day == d))) := rfl
    rw [hsl] at hhe
    rcases List.mem_map.mp hhe with ⟨i, _, rfl⟩
    show slotStoppageMinutes _ i
      = stoppageSum (((slotOf _ i).map (fun h => h.stoppages)).getD [])
    cases hs : slotOf (records.find? (fun r => r.day == d)) i <;>
      simp [slotStoppageMinutes, hs, stoppageSum]

/-- Concrete instance of the C5 theorem. -/
theorem claim5_witness :
    3 ∈ (buildTimeline ([] : List ProductionRecord) 2 4).map (fun d => d.date) ∧
    deriveStatus 50 10 = statusSpec 50 10 :=
  ⟨(claim5_timeline_dense [] 2 4).2.1 3 (by decide) (by decide),
   (claim5_timeline_dense [] 2 4).2.2.2.2.2.2 50 10 (by decide) (by decide)⟩

/-! ### Claim C6 -/

/-- Claim C6: for a midnight-crossing shift the expansion from anchor h is
exactly the current-day evening range when h is at least startHour, exactly
the early-morning range when h is before endHour, and those two conditions
never hold together; when no configured shift contains the hour the update
set is the single requested hour; the 22:00-06:00 shift anchored at 23
expands to exactly hours 22 and 23. -/
theorem claim6_shift_expansion (s : ShiftDefinition) (h : Nat)
    (shifts : List ShiftDefinition) :
    (s.endHour < s.startHour →
      (s.startHour ≤ h → expandShift s h = rangeFromTo s.startHour 24) ∧
      (h < s.endHour → expandShift s h = rangeFromTo 0 s.endHour) ∧
      ¬(s.startHour ≤ h ∧ h < s.endHour)) ∧
    ((∀ t ∈ shifts, shiftContains t h = false) →
      hoursToUpdate shifts h true = [h]) ∧
    hoursToUpdate [⟨22, 6⟩] 23 true = [22, 23] := by
  refine ⟨fun hcross => ⟨?_, ?_, by omega⟩, ?_, by decide⟩
  · intro hge
    rw [expandShift, if_neg (by omega), if_pos hge]
  · intro hlt
    rw [expandShift, if_neg (by omega), if_neg (by omega), if_pos hlt]
  · intro hnone
    have hfind : shifts.find? (fun t => shiftContains t h) = none :=
      List.find?_eq_none.mpr (fun t ht => by simp [hnone t ht])
    simp [hoursToUpdate, hfind]

/-- Concrete instance of the C6 theorem. -/
theorem claim6_witness :
    expandShift ⟨22, 6⟩ 23 = rangeFromTo 22 24 ∧
    expandShift ⟨22, 6⟩ 3 = rangeFromTo 0 6 ∧
    hoursToUpdate [⟨8, 16⟩] 20 true = [20] :=
  ⟨((claim6_shift_expansion ⟨22, 6⟩ 23 []).1 (by decide)).1 (by decide),
   ((claim6_shift_expansion ⟨22, 6⟩ 3 []).1 (by decide)).2.1 (by decide),
   (claim6_shift_expansion ⟨8, 16⟩ 20 [⟨8, 16⟩]).2.1 (by decide)⟩

/-! ### Claim C7 -/

/-- Claim C7: every ratio metric of computeStats is total — availability is
0 when the minute denominator is 0, quality is 0 when no units were
produced, performance is 0 when expected units is 0, and mtbf and mttr are
0 when there are no breakdown stoppages; only stoppages whose reason is
breakdown count toward the breakdown counters. -/
theorem claim7_ratio_guards (records : List ProductionRecord) :
    (totalRunningMinutesOf records + totalStoppageMinutesOf records = 0 →
      (computeStats records).availability = 0) ∧
    (totalUnitsProducedOf records = 0 → (computeStats records).quality = 0) ∧
    (totalExpectedUnits records = 0 → (computeStats records).performance = 0) ∧
    ((computeStats records).breakdownStoppages = 0 →
      (computeStats records).mtbf = 0 ∧ (computeStats records).mttr = 0) ∧
    (computeStats records).breakdownStoppages = (breakdownListOf records).length ∧
    breakdownListOf records
      = (allStoppages records).filter (fun s => s.reason == "breakdown") ∧
    (computeStats records).totalBreakdownMinutes
      = ((breakdownListOf records).map (fun s => s.duration.getD 0)).sum := by
  refine ⟨?_, ?_, ?_, ?_, rfl, rfl, rfl⟩
  · intro h
    show availabilityOf records = 0
    rw [availabilityOf, if_neg (by omega)]
  · intro h
    show qualityOf records = 0
    rw [qualityOf, if_neg (by omega)]
  · intro h
    show performanceOf records = 0
    rw [performanceOf, if_neg (by simp [h])]
  · intro h
    have hl : (breakdownListOf records).length = 0 := h
    constructor
    · show mtbfOf records = 0
      rw [mtbfOf, if_neg (by omega)]
    · show mttrOf records = 0
      rw [mttrOf, if_neg (by omega)]

/-- Concrete instance of the C7 theorem on the empty record set. -/
theorem claim7_witness :
    (computeStats ([] : List ProductionRecord)).availability = 0 ∧
    (computeStats ([] : List ProductionRecord)).quality = 0 ∧
    (computeStats ([] : List ProductionRecord)).performance = 0 ∧
    (computeStats ([] : List ProductionRecord)).mtbf = 0 ∧
    (computeStats ([] : List ProductionRecord)).mttr = 0 :=
  ⟨(claim7_ratio_guards []).1 rfl,
   (claim7_ratio_guards []).2.1 rfl,
   (claim7_ratio_guards []).2.2.1 (by norm_num [totalExpectedUnits, allSlots]),
   ((claim7_ratio_guards []).2.2.2.1 rfl).1,
   ((claim7_ratio_guards []).2.2.2.1 rfl).2⟩

/-! ### Claim C8 -/

/-- Frame relation of one assignment update: a slot of the updated record is
either a pre-existing slot with every field unchanged except possibly
defectiveUnits — and that only when its hour is the requested hour and the
request carried a value — or a slot newly seeded by this update, carrying
exactly the resolved operator and mold of the request and zeroes. -/
def slotFrame (inp : AssignInput) (olds : List HourSlot) (s2 : HourSlot) : Prop :=
  (∃ s, s ∈ olds ∧ s2.hour = s.hour ∧ s2.operatorId = s.operatorId ∧
    s2.moldId = s.moldId ∧ s2.unitsProduced = s.unitsProduced ∧
    s2.status = s.status ∧ s2.runningMinutes = s.runningMinutes ∧
    s2.stoppageMinutes = s.stoppageMinutes ∧ s2.stoppages = s.stoppages ∧
    (s2.defectiveUnits = s.defectiveUnits ∨
      (s.hour = inp.hour ∧ inp.defectiveUnits = some s2.defectiveUnits))) ∨
  (s2.operatorId = inp.operatorId ∧ s2.moldId = inp.moldId ∧
    s2.unitsProduced = 0 ∧ s2.runningMinutes = 0 ∧ s2.stoppageMinutes = 0 ∧
    s2.stoppages = [] ∧ s2.status = some ("inactive"))

theorem slotFrame_assignTouch (inp : AssignInput) (olds : List HourSlot)
    (th : Nat) (x : HourSlot) (hx : slotFrame inp olds x) (hh : x.hour = th) :
    slotFrame inp olds (assignTouch inp th x) := by
  unfold assignTouch
  by_cases hth : (th == inp.hour) = true
  · rw [if_pos hth]
    cases hd : inp.defectiveUnits with
    | none => exact hx
    | some d =>
        rcases hx with ⟨s, hmem, h1, h2, h3, h4, h5, h6, h7, h8, _⟩ | hfresh
        · exact Or.inl ⟨s, hmem, h1, h2, h3, h4, h5, h6, h7, h8,
            Or.inr ⟨by rw [← h1, hh]; exact eq_of_beq hth, by rw [hd]⟩⟩
        · exact Or.inr hfresh
  · rw [if_neg hth]
    exact hx

theorem slotFrame_fresh (inp : AssignInput) (olds : List HourSlot) (th : Nat) :
    slotFrame inp olds (assignTouch inp th (freshAssignSlot inp th)) := by
  unfold assignTouch
  by_cases hth : (th == inp.hour) = true
  · rw [if_pos hth]
    cases inp.defectiveUnits with
    | none => exact Or.inr ⟨rfl, rfl, rfl, rfl, rfl, rfl, rfl⟩
    | some d => exact Or.inr ⟨rfl, rfl, rfl, rfl, rfl, rfl, rfl⟩
  · rw [if_neg hth]
    exact Or.inr ⟨rfl, rfl, rfl, rfl, rfl, rfl, rfl⟩

theorem slotFrame_assignHourSlot (inp : AssignInput) (olds : List HourSlot)
    (th : Nat) (acc : List HourSlot) (hacc : ∀ s ∈ acc, slotFrame inp olds s) :
    ∀ s2 ∈ assignHourSlot inp th acc, slotFrame inp olds s2 := by
  intro y hy
  rcases mem_findOrCreateUpdate _ _ _ acc y hy with h | ⟨x, hxm, hpx, rfl⟩ | heq
  · exact hacc y h
  · exact slotFrame_assignTouch inp olds th x (hacc x hxm) (eq_of_beq hpx)
  · rw [heq]
    exact slotFrame_fresh inp olds th

theorem slotFrame_foldl (inp : AssignInput) (olds : List HourSlot) :
    ∀ (hs : List Nat) (acc : List HourSlot),
      (∀ s ∈ acc, slotFrame inp olds s) →
      ∀ s2 ∈ hs.foldl (fun a th => assignHourSlot inp th a) acc,
        slotFrame inp olds s2
  | [], acc, hacc => hacc
  | th :: hs, acc, hacc => by
      intro y hy
      rw [List.foldl_cons] at hy
      exact slotFrame_foldl inp olds hs (assignHourSlot inp th acc)
        (slotFrame_assignHourSlot inp olds th acc hacc) y hy

/-- Claim C8: after a production assignment update every slot of the record
satisfies the frame relation — pre-existing slots keep operator, mold and
every other field, with defectiveUnits the only field ever overwritten and
only on the slot of the exact requested hour; operator and mold appear only
on newly created slots — and the record-level defectiveUnits equals the sum
of defectiveUnits over all slots. -/
theorem claim8_assignment_frame (shifts : List ShiftDefinition)
    (inp : AssignInput) (r : ProductionRecord) :
    (∀ s2 ∈ (applyAssignment shifts inp r).hourlyData,
      slotFrame inp r.hourlyData s2) ∧
    (applyAssignment shifts inp r).defectiveUnits
      = ((applyAssignment shifts inp r).hourlyData.map
          (fun h => h.defectiveUnits)).sum := by
  constructor
  · intro y hy
    have hinit : ∀ s ∈ r.hourlyData, slotFrame inp r.hourlyData s := fun s hs =>
      Or.inl ⟨s, hs, rfl, rfl, rfl, rfl, rfl, rfl, rfl, rfl, Or.inl rfl⟩
    exact slotFrame_foldl inp r.hourlyData _ r.hourlyData hinit y hy
  · rfl

def inpW8 : AssignInput :=
  { machineId := 1, day := 0, hour := 5, operatorId := some 2, moldId := none,
    defectiveUnits := some 3, applyToShift := false }

def oldSlotW8 : HourSlot :=
  { hour := 5, unitsProduced := 40, defectiveUnits := 1,
    status := some ("running"), runningMinutes := 30, stoppageMinutes := 0,
    operatorId := some 9, moldId := none, stoppages := [] }

def recW8 : ProductionRecord :=
  { machineId := 1, day := 0, unitsProduced := 40, defectiveUnits := 1,
    operatorId := none, moldId := none, hourlyData := [oldSlotW8] }

/-- Concrete instance of the C8 theorem: the pre-existing slot keeps its
operator while only its defectiveUnits changes. -/
theorem claim8_witness :
    slotFrame inpW8 recW8.hourlyData { oldSlotW8 with defectiveUnits := 3 } ∧
    (applyAssignment [] inpW8 recW8).defectiveUnits
      = ((applyAssignment [] inpW8 recW8).hourlyData.map
          (fun h => h.defectiveUnits)).sum :=
  ⟨(claim8_assignment_frame [] inpW8 recW8).1
      { oldSlotW8 with defectiveUnits := 3 } (by decide),
   (claim8_assignment_frame [] inpW8 recW8).2⟩

/-! ### Claim C9 -/

/-- Claim C9 (amended): the read routes (timeline, machine stats) resolve
the machine first and fail with the not-found error, reading nothing, when
it is unknown; the write routes perform no machine resolution at all — a
stoppage submission (of any non-breakdown reason, so that SAP validation
passes) and a production assignment always find-or-create a production
record for the submitted machine id, resolvable or not. -/
theorem claim9_machine_resolution :
    (∀ (machines : List Nat) (machineId : Nat) (records : List ProductionRecord)
        (startDay endDay : Nat), machines.contains machineId = false →
      productionTimeline machines machineId records startDay endDay
        = Except.error ("Machine not found")) ∧
    (∀ (machines : List Nat) (machineId : Nat) (records : List ProductionRecord)
        (startDay endDay : Nat), machines.contains machineId = false →
      machineStats machines machineId records startDay endDay
        = Except.error ("Machine not found")) ∧
    (∀ (now : Int) (db : List ProductionRecord) (inp : StoppageInput),
      inp.reason ≠ "breakdown" →
      ∃ db2, recordStoppage now db inp = Except.ok db2 ∧
        (lookupRecord db2 inp.machineId inp.day).isSome = true) ∧
    (∀ (shifts : List ShiftDefinition) (db : List ProductionRecord)
        (inp : AssignInput),
      (lookupRecord (productionAssignment shifts db inp)
        inp.machineId inp.day).isSome = true) := by
  refine ⟨?_, ?_, ?_, ?_⟩
  · intro machines machineId records startDay endDay h
    rw [productionTimeline, if_neg (by rw [h]; simp)]
  · intro machines machineId records startDay endDay h
    rw [machineStats, if_neg (by rw [h]; simp)]
  · intro now db inp hnb
    have hrb : (inp.reason == "breakdown") = false :=
      beq_eq_false_iff_ne.mpr hnb
    refine ⟨findOrCreateUpdate
        (fun r => r.machineId == inp.machineId && r.day == inp.day)
        (stoppageSlotUpdate now inp) (freshRecord inp.machineId inp.day) db,
      ?_, ?_⟩
    · rw [recordStoppage, if_neg (by simp [hrb]), if_neg (by simp [hrb])]
    · rw [lookupRecord, find?_findOrCreateUpdate
        (fun r => r.machineId == inp.machineId && r.day == inp.day)
        (stoppageSlotUpdate now inp) (freshRecord inp.machineId inp.day)
        (fun r => rfl) (by simp [freshRecord]) db]
      rfl
  · intro shifts db inp
    unfold productionAssignment lookupRecord
    rw [find?_findOrCreateUpdate
      (fun r => r.machineId == inp.machineId && r.day == inp.day)
      (applyAssignment shifts inp) (freshRecord inp.machineId inp.day)
      (fun r => rfl) (by simp [freshRecord]) db]
    rfl

def machinesC9 : List Nat := [1, 2, 3]

def inpC9 : StoppageInput :=
  { machineId := 7, hour := 3, day := 10, reason := "other", duration := 15 }

/-- Claim C9 counterexample: machine 7 does not resolve against the machine
collection, yet the stoppage submission succeeds and creates a production
record for machine 7 — the write route performs no machine check, so the
claim that every write referencing an unknown machine fails with no write
attempted is false. -/
theorem claim9_counterexample :
    machinesC9.contains 7 = false ∧
    ((recordStoppage 0 [] inpC9).toOption.bind
      (fun db => lookupRecord db 7 10)).isSome = true :=
  ⟨by decide, by decide⟩

def inpW9a : AssignInput := { machineId := 9, day := 2, hour := 4 }

/-- Concrete instance of the C9 theorem. -/
theorem claim9_witness :
    productionTimeline [1] 7 [] 0 1 = Except.error ("Machine not found") ∧
    machineStats [1] 7 [] 0 1 = Except.error ("Machine not found") ∧
    (∃ db2, recordStoppage 0 [] inpC9 = Except.ok db2 ∧
      (lookupRecord db2 inpC9.machineId inpC9.day).isSome = true) ∧
    (lookupRecord (productionAssignment [] [] inpW9a)
      inpW9a.machineId inpW9a.day).isSome = true :=
  ⟨claim9_machine_resolution.1 [1] 7 [] 0 1 (by decide),
   claim9_machine_resolution.2.1 [1] 7 [] 0 1 (by decide),
   claim9_machine_resolution.2.2.1 0 [] inpC9 (by decide),
   claim9_machine_resolution.2.2.2 [] [] inpW9a⟩

/-! ### Claim C10 -/

/-- Claim C10: in every timeline entry the emitted operator (and mold) is
the slot-level reference when one exists, falls back to the record-level
reference of the day otherwise, and is absent exactly when neither level
carries one; the hours of a timeline day are exactly the buildHour entries
over the record found for that day. -/
theorem claim10_operator_mold_fallback (recOpt : Option ProductionRecord)
    (i : Nat) (records : List ProductionRecord) (day : Nat) :
    ((buildDay records day).hours
      = (List.range 24).map (buildHour (records.find? (fun r => r.day == day)))) ∧
    (∀ o, (slotOf recOpt i).bind (fun h => h.operatorId) = some o →
      (buildHour recOpt i).operator = some o) ∧
    ((slotOf recOpt i).bind (fun h => h.operatorId) = none →
      (buildHour recOpt i).operator = recOpt.bind (fun r => r.operatorId)) ∧
    ((buildHour recOpt i).operator = none ↔
      (slotOf recOpt i).bind (fun h => h.operatorId) = none ∧
        recOpt.bind (fun r => r.operatorId) = none) ∧
    (∀ m, (slotOf recOpt i).bind (fun h => h.moldId) = some m →
      (buildHour recOpt i).mold = some m) ∧
    ((slotOf recOpt i).bind (fun h => h.moldId) = none →
      (buildHour recOpt i).mold = recOpt.bind (fun r => r.moldId)) ∧
    ((buildHour recOpt i).mold = none ↔
      (slotOf recOpt i).bind (fun h => h.moldId) = none ∧
        recOpt.bind (fun r => r.moldId) = none) := by
  refine ⟨rfl, ?_, ?_, ?_, ?_, ?_, ?_⟩
  · intro o ho
    show emittedOperator recOpt i = some o
    rw [emittedOperator, ho]
    rfl
  · intro h0
    show emittedOperator recOpt i = recOpt.bind (fun r => r.operatorId)
    rw [emittedOperator, h0]
    rfl
  · show emittedOperator recOpt i = none ↔ _
    rw [emittedOperator]
    cases hs : (slotOf recOpt i).bind (fun h => h.operatorId) <;>
      cases hr : recOpt.bind (fun r => r.operatorId) <;> simp [Option.orElse]
  · intro m hm
    show emittedMold recOpt i = some m
    rw [emittedMold, hm]
    rfl
  · intro h0
    show emittedMold recOpt i = recOpt.bind (fun r => r.moldId)
    rw [emittedMold, h0]
    rfl
  · show emittedMold recOpt i = none ↔ _
    rw [emittedMold]
    cases hs : (slotOf recOpt i).bind (fun h => h.moldId) <;>
      cases hr : recOpt.bind (fun r => r.moldId) <;> simp [Option.orElse]

def slotW10 : HourSlot :=
  { hour := 6, unitsProduced := 10, defectiveUnits := 0,
    status := some ("running"), runningMinutes := 45, stoppageMinutes := 0,
    operatorId := none, moldId := none, stoppages := [] }

def recW10 : ProductionRecord :=
  { machineId := 1, day := 0, unitsProduced := 10, defectiveUnits := 0,
    operatorId := some 4, moldId := none, hourlyData := [slotW10] }

/-- Concrete instance of the C10 theorem: the slot has no operator, so the
emitted operator falls back to the record-level one. -/
theorem claim10_witness :
    (buildHour (some recW10) 6).operator
      = (some recW10).bind (fun r => r.operatorId) :=
  (claim10_operator_mold_fallback (some recW10) 6 [] 0).2.2.1 (by decide)

end AuxMachine











